import Mathlib

/-!
Verification of the Wayland capture-state cache and error classifier
(`src/server/wayland.rs`).

The Rust source is embedded shallowly:
* the process-wide rate-limit counter `LOG_SCRAP_COUNT` becomes an explicit
  `Nat` threaded through `try_log`;
* the `CAP_DISPLAY_INFO` cache (a raw pointer published through an `RwLock`,
  `0` meaning absent) becomes an `Option (CapDisplayInfo DI Cap)`;
* external collaborators (`scrap::is_x11`, `Display::all`,
  `video_service::get_displays_2`, `video_service::get_current_display_2`,
  `Capturer::new`) become fields of an `Env` record, so theorems quantify
  over their behaviour;
* observable side effects of `check_init` (display enumeration, device
  construction, forwarding the bounding rectangle to
  `input_service::set_uinput_resolution`) are recorded as flags in the
  result structure `InitResult`.
-/

namespace Wayland

/-! ## String primitives used by the Rust source

Rust compares `String`s by lexicographic byte order of their UTF-8
encodings; since UTF-8 preserves code-point order, lexicographic
comparison of the code-point lists is the same relation.  `to_uppercase`
is modelled per character (the strings compared in the source are ASCII).
-/

/-- Lexicographic strict order on character lists, as Rust's `str` ordering. -/
def charListLt : List Char → List Char → Bool
  | [], [] => false
  | [], _ :: _ => true
  | _ :: _, [] => false
  | a :: as, b :: bs =>
    if a < b then true
    else if b < a then false
    else charListLt as bs

/-- Rust `a < b` on `String`. -/
def rustStrLt (a b : String) : Bool :=
  charListLt a.data b.data

/-- Rust `String::to_uppercase` (ASCII-accurate; all strings the source
uppercases are ASCII). -/
def rustToUppercase (s : String) : String :=
  ⟨s.data.map Char.toUpper⟩

/-- `needle` occurs as a contiguous run inside the character list. -/
def listContainsSub (needle : List Char) : List Char → Bool
  | [] => needle.isEmpty
  | c :: rest => needle.isPrefixOf (c :: rest) || listContainsSub needle rest

/-- Rust `hay.contains(needle)` (substring containment). -/
def strContainsSub (hay needle : String) : Bool :=
  listContainsSub needle.data hay.data

/-! ## Constants (`wayland.rs` lines 6-10) -/

def SCRAP_UBUNTU_HIGHER_REQUIRED : String :=
  "Wayland requires Ubuntu 21.04 or higher version."

def SCRAP_OTHER_VERSION_OR_X11_REQUIRED : String :=
  "Wayland requires higher version of linux distro. Please try X11 desktop or change your OS."

def SCRAP_X11_REQUIRED : String := "X11 is required"

/-! ## Rate-limited logger (`try_log`, lines 42-51)

`try_log` takes the current value of `LOG_SCRAP_COUNT` and returns whether
a `log::error!` line was emitted together with the new counter value.
-/

def try_log (count : Nat) : Bool × Nat :=
  if 1000000 ≤ count then (false, count)
  else (count % 10000 == 0, count + 1)

/-- Iterate `try_log` `n` times from counter value `c`; returns the number
of emitted log lines and the final counter value. -/
def run_try_log : Nat → Nat → Nat × Nat
  | 0, c => (0, c)
  | n + 1, c =>
    let r := try_log c
    let rest := run_try_log n r.2
    ((if r.1 then 1 else 0) + rest.1, rest.2)

/-! ## Error classifier (`map_err_scrap`, lines 21-40)

The ambient `DISTRO` value is passed explicitly, and the rate-limit
counter is threaded through.  The produced `io::Error` is represented by
its message string; the returned triple is
(message, log line emitted, new counter).
-/

structure Distro where
  name : String
  version_id : String

/-- The raw message contains one of the three display-server markers. -/
def msgMentionsDisplayServer (err : String) : Bool :=
  strContainsSub err "org.freedesktop.portal"
    || strContainsSub err "pipewire"
    || strContainsSub err "dbus"

def map_err_scrap (d : Distro) (err : String) (count : Nat) :
    String × Bool × Nat :=
  if rustToUppercase d.name = rustToUppercase "Ubuntu" then
    if rustStrLt d.version_id "21" then
      (SCRAP_UBUNTU_HIGHER_REQUIRED, false, count)
    else
      let r := try_log count
      (err, r.1, r.2)
  else
    let r := try_log count
    if msgMentionsDisplayServer err then
      (SCRAP_OTHER_VERSION_OR_X11_REQUIRED, r.1, r.2)
    else
      (SCRAP_X11_REQUIRED, r.1, r.2)

/-! ## `common_get_error` (lines 234-243) -/

def common_get_error (d : Distro) : String :=
  if rustToUppercase d.name = rustToUppercase "Ubuntu" then
    if rustStrLt d.version_id "21" then ""
    else ""
  else ""

/-! ## Two's-complement 32-bit arithmetic

`check_init` computes `maxx = origin.0 + width as i32` where `origin.0 :
i32` and `width : usize`; the cast truncates to the low 32 bits
(signed), and release-mode addition wraps.
-/

/-- Canonical signed 32-bit representative of an integer. -/
def wrapI32 (x : Int) : Int :=
  (x + 2 ^ 31) % 2 ^ 32 - 2 ^ 31

/-- Rust `n as i32` for `n : usize`. -/
def toI32 (n : Nat) : Int :=
  wrapI32 n

/-! ## The capture-state cache (`CAP_DISPLAY_INFO`, lines 53-232)

`DI` is the opaque `DisplayInfo` descriptor type and `Cap` the capture
device type; both are produced by external collaborators, so the
development is parameterised over them.  The cache word (`0` = absent,
otherwise a pointer to a `CapDisplayInfo`) is an `Option`.
-/

/-- A `scrap::Display`: geometry exposed through `origin`, `width`,
`height` (all the source reads from it). -/
structure Display where
  origin : Int × Int
  width : Nat
  height : Nat

/-- `CapDisplayInfo` (lines 73-80); `capturer` stands for the
`CapturerPtr` to the one live device. -/
structure CapDisplayInfo (DI Cap : Type) where
  rects : List ((Int × Int) × Nat × Nat)
  displays : List DI
  num : Nat
  primary : Nat
  current : Nat
  capturer : Cap

/-- External collaborators of `check_init` / `clear` / the accessors. -/
structure Env (DI Cap : Type) where
  /-- `scrap::is_x11()`. -/
  is_x11 : Bool
  /-- `Display::all()`. -/
  display_all : Except String (List Display)
  /-- `video_service::get_displays_2`, returning `(primary, displays)`. -/
  get_displays_2 : List Display → Nat × List DI
  /-- `video_service::get_current_display_2`, returning
  `(ndisplay, current, display)`. -/
  get_current_display_2 : List Display → Except String (Nat × Nat × Display)
  /-- `Capturer::new(display, yuv)`. -/
  capturer_new : Display → Bool → Except String Cap

/-- Result of one `check_init` call: the returned `ResultType<()>`, the
new cache word, and which externally observable steps ran
(`Display::all`, `Capturer::new`, the `set_uinput_resolution` forwarding). -/
structure InitResult (DI Cap : Type) where
  res : Except String Unit
  state : Option (CapDisplayInfo DI Cap)
  enumerated : Bool
  constructed : Bool
  forwarded : Bool

variable {DI Cap : Type}

/-- `check_init` (lines 82-149).  The double-checked locking collapses to
a single test of the cache word in this sequential embedding; `minx` /
`maxx` / `miny` / `maxy` stay `0` unless this call performed the
initialization, so forwarding happens only on the initializing call and
only when `minx ≠ maxx ∧ miny ≠ maxy`. -/
def check_init (env : Env DI Cap) (s : Option (CapDisplayInfo DI Cap)) :
    InitResult DI Cap :=
  if env.is_x11 then ⟨.ok (), s, false, false, false⟩
  else
    match s with
    | some info => ⟨.ok (), some info, false, false, false⟩
    | none =>
      match env.display_all with
      | .error e => ⟨.error e, none, true, false, false⟩
      | .ok all =>
        let num := all.length
        let pd := env.get_displays_2 all
        let primary := pd.1
        let displays := pd.2
        let rects := all.map fun d => (d.origin, d.width, d.height)
        match env.get_current_display_2 all with
        | .error e => ⟨.error e, none, true, false, false⟩
        | .ok (_ndisplay, current, display) =>
          let minx := display.origin.1
          let maxx := wrapI32 (display.origin.1 + toI32 display.width)
          let miny := display.origin.2
          let maxy := wrapI32 (display.origin.2 + toI32 display.height)
          match env.capturer_new display true with
          | .error e =>
            -- `.with_context(|| "Failed to create capturer")?`
            ⟨.error ("Failed to create capturer: " ++ e), none, true, true, false⟩
          | .ok capturer =>
            let info : CapDisplayInfo DI Cap :=
              ⟨rects, displays, num, primary, current, capturer⟩
            ⟨.ok (), some info, true, true, minx != maxx && miny != maxy⟩

/-- `clear` (lines 151-164): drop the cached state (and with it the
device) when present; the cache word returns to `0`. -/
def clear (is_x11 : Bool) (s : Option (CapDisplayInfo DI Cap)) :
    Option (CapDisplayInfo DI Cap) :=
  if is_x11 then s
  else
    match s with
    | some _ => none
    | none => s

def CACHE_ERR : String := "Failed to get capturer display info"

/-- `get_displays` (lines 166-180): runs `check_init` first, then reads
`(primary, displays)`; also returns the cache word it leaves behind. -/
def get_displays (env : Env DI Cap) (s : Option (CapDisplayInfo DI Cap)) :
    Except String (Nat × List DI) × Option (CapDisplayInfo DI Cap) :=
  let r := check_init env s
  match r.res with
  | .error e => (.error e, r.state)
  | .ok _ =>
    match r.state with
    | some info => (.ok (info.primary, info.displays), r.state)
    | none => (.error CACHE_ERR, r.state)

/-- `get_primary` (lines 182-193): a pure read of the cache word, no
initialization. -/
def get_primary (s : Option (CapDisplayInfo DI Cap)) : Except String Nat :=
  match s with
  | some info => .ok info.primary
  | none => .error CACHE_ERR

/-- `get_display_num` (lines 195-206): a pure read, no initialization. -/
def get_display_num (s : Option (CapDisplayInfo DI Cap)) : Except String Nat :=
  match s with
  | some info => .ok info.num
  | none => .error CACHE_ERR

/-- `CapturerInfo` as built by `get_capturer` (privacy fields are the
constants `0`). -/
structure CapturerInfo (Cap : Type) where
  origin : Int × Int
  width : Nat
  height : Nat
  ndisplay : Nat
  current : Nat
  privacy_mode_id : Nat
  capturer : Cap

/-- `get_capturer` (lines 208-232): a pure read, no initialization.  The
source indexes `rects[current]` unconditionally (panicking if out of
bounds); the out-of-bounds panic is modelled as an error value. -/
def get_capturer (is_x11 : Bool) (s : Option (CapDisplayInfo DI Cap)) :
    Except String (CapturerInfo Cap) :=
  if is_x11 then .error "Do not call this function if not wayland"
  else
    match s with
    | some info =>
      match info.rects.get? info.current with
      | some rect => .ok ⟨rect.1, rect.2.1, rect.2.2, info.num, info.current, 0, info.capturer⟩
      | none => .error "index out of bounds"
    | none => .error CACHE_ERR

/-! ## Lemmas about the rate-limited logger -/

theorem try_log_below (c : Nat) (h : c < 1000000) :
    try_log c = (c % 10000 == 0, c + 1) := by
  unfold try_log
  rw [if_neg (by omega)]

theorem run_try_log_add (m n c : Nat) :
    run_try_log (m + n) c =
      ((run_try_log m c).1 + (run_try_log n (run_try_log m c).2).1,
        (run_try_log n (run_try_log m c).2).2) := by
  induction m generalizing c with
  | zero => simp [run_try_log]
  | succ m ih =>
    rw [Nat.succ_add]
    simp only [run_try_log]
    rw [ih]
    simp [Nat.add_assoc]

/-- A stretch with no multiple of 10000 below the ceiling emits nothing
and advances the counter by its length. -/
theorem run_try_log_skip (n : Nat) : ∀ c : Nat, c + n ≤ 1000000 →
    (∀ i, i < n → (c + i) % 10000 ≠ 0) → run_try_log n c = (0, c + n) := by
  induction n with
  | zero => intro c _ _; simp [run_try_log]
  | succ n ih =>
    intro c hc h
    have hc0 : c < 1000000 := by omega
    have hne : c % 10000 ≠ 0 := by simpa using h 0 (by omega)
    have hbeq : (c % 10000 == 0) = false := by simpa using hne
    simp only [run_try_log, try_log_below c hc0, hbeq]
    have hrest : run_try_log n (c + 1) = (0, c + 1 + n) :=
      ih (c + 1) (by omega) (fun i hi => by
        have := h (i + 1) (by omega)
        omega)
    rw [hrest]
    refine Prod.ext ?_ ?_ <;> simp <;> omega

/-- A block of `n ≤ 10000` calls starting at a counter that is a multiple
of 10000 (below the ceiling) emits exactly one line. -/
theorem run_try_log_emit_block (n c : Nat) (hc : c % 10000 = 0) (h1 : 1 ≤ n)
    (h2 : n ≤ 10000) (hceil : c + n ≤ 1000000) :
    run_try_log n c = (1, c + n) := by
  obtain ⟨m, rfl⟩ : ∃ m, n = 1 + m := ⟨n - 1, by omega⟩
  rw [run_try_log_add 1 m c]
  have hone : run_try_log 1 c = (1, c + 1) := by
    have hc0 : c < 1000000 := by omega
    simp [run_try_log, try_log_below c hc0, hc]
  rw [hone]
  have hskip : run_try_log m (c + 1) = (0, c + 1 + m) :=
    run_try_log_skip m (c + 1) (by omega) (fun i hi => by omega)
  rw [hskip]
  refine Prod.ext ?_ ?_ <;> simp <;> omega

/-! ## Claim theorems for the classifier and logger -/

/-- C1: the classifier follows the decision table: Ubuntu (case-insensitive)
with version lexicographically below "21" yields the fixed
`SCRAP_UBUNTU_HIGHER_REQUIRED` text without the raw message; Ubuntu at or
above the threshold returns the raw message itself; any other distro
yields the display-server-mismatch text exactly when the message contains
"org.freedesktop.portal", "pipewire" or "dbus", and the X11-required text
otherwise. -/
theorem map_err_scrap_decision_table (d : Distro) (err : String) (c : Nat) :
    (rustToUppercase d.name = "UBUNTU" →
      (rustStrLt d.version_id "21" = true →
        (map_err_scrap d err c).1 = SCRAP_UBUNTU_HIGHER_REQUIRED) ∧
      (rustStrLt d.version_id "21" = false →
        (map_err_scrap d err c).1 = err)) ∧
    (rustToUppercase d.name ≠ "UBUNTU" →
      (msgMentionsDisplayServer err = true →
        (map_err_scrap d err c).1 = SCRAP_OTHER_VERSION_OR_X11_REQUIRED) ∧
      (msgMentionsDisplayServer err = false →
        (map_err_scrap d err c).1 = SCRAP_X11_REQUIRED)) := by
  have hU : rustToUppercase "Ubuntu" = "UBUNTU" := by decide
  constructor
  · intro hn
    have hn' : rustToUppercase d.name = rustToUppercase "Ubuntu" := by rw [hn, hU]
    constructor <;> intro hv <;> simp [map_err_scrap, hn', hv]
  · intro hn
    have hn' : ¬ rustToUppercase d.name = rustToUppercase "Ubuntu" := by rw [hU]; exact hn
    constructor <;> intro hm <;> simp [map_err_scrap, hn', hm]

/-- Witness for C1: the four concrete rows of the decision table from the
specification. -/
theorem map_err_scrap_decision_table_witness :
    (map_err_scrap ⟨"Ubuntu", "20.04"⟩ "anything" 0).1 = SCRAP_UBUNTU_HIGHER_REQUIRED ∧
    (map_err_scrap ⟨"Ubuntu", "22.04"⟩ "boom" 0).1 = "boom" ∧
    (map_err_scrap ⟨"Fedora", "36"⟩ "pipewire timeout" 0).1 = SCRAP_OTHER_VERSION_OR_X11_REQUIRED ∧
    (map_err_scrap ⟨"Fedora", "36"⟩ "unknown" 0).1 = SCRAP_X11_REQUIRED :=
  ⟨((map_err_scrap_decision_table ⟨"Ubuntu", "20.04"⟩ "anything" 0).1 (by decide)).1 (by decide),
   ((map_err_scrap_decision_table ⟨"Ubuntu", "22.04"⟩ "boom" 0).1 (by decide)).2 (by decide),
   ((map_err_scrap_decision_table ⟨"Fedora", "36"⟩ "pipewire timeout" 0).2 (by decide)).1 (by decide),
   ((map_err_scrap_decision_table ⟨"Fedora", "36"⟩ "unknown" 0).2 (by decide)).2 (by decide)⟩

/-- C2 counterexample: at the ceiling the counter does NOT increment —
`try_log` returns before the increment, so after a call at counter
1000000 the counter is still 1000000, not 1000001, refuting "the counter
still increments on each further call". -/
theorem try_log_at_ceiling_no_increment :
    ¬ (try_log 1000000).2 = 1000000 + 1 := by decide

/-- C2 (amended): once the counter has reached the 1,000,000 ceiling,
each further call emits no log line and leaves the counter unchanged
(the source returns before the increment). -/
theorem try_log_past_ceiling (c : Nat) (h : 1000000 ≤ c) :
    try_log c = (false, c) := by
  unfold try_log
  rw [if_pos h]

/-- Witness for C2's amended theorem, at the ceiling itself. -/
theorem try_log_past_ceiling_witness : try_log 1000000 = (false, 1000000) :=
  try_log_past_ceiling 1000000 (by decide)

/-- C3: a log line is emitted exactly when the counter is a multiple of
10000 and below 1,000,000; 25,000 consecutive calls from counter 0
produce exactly 3 emissions and leave the counter at 25000. -/
theorem try_log_emission_iff :
    (∀ c : Nat, (try_log c).1 = true ↔ c % 10000 = 0 ∧ c < 1000000) ∧
    run_try_log 25000 0 = (3, 25000) := by
  constructor
  · intro c
    unfold try_log
    by_cases h : 1000000 ≤ c
    · rw [if_pos h]; simp; omega
    · rw [if_neg h]; simp; omega
  · have b1 : run_try_log 10000 0 = (1, 10000) :=
      run_try_log_emit_block 10000 0 (by omega) (by omega) (by omega) (by omega)
    have b2 : run_try_log 10000 10000 = (1, 20000) := by
      have := run_try_log_emit_block 10000 10000 (by omega) (by omega) (by omega) (by omega)
      simpa using this
    have b3 : run_try_log 5000 20000 = (1, 25000) := by
      have := run_try_log_emit_block 5000 20000 (by omega) (by omega) (by omega) (by omega)
      simpa using this
    have e1 : (25000 : Nat) = 10000 + 15000 := by omega
    have e2 : (15000 : Nat) = 10000 + 5000 := by omega
    rw [e1, run_try_log_add, b1, e2, run_try_log_add, b2, b3]
    rfl

/-- Witness for C3, evaluating the emission condition at counter 0. -/
theorem try_log_emission_iff_witness : (try_log 0).1 = true :=
  (try_log_emission_iff.1 0).mpr (by omega)

/-- C9: the classified error is a deterministic function of the distro
name, version and raw message alone — the rate-limit counter value never
changes the returned message, only whether a log line is emitted. -/
theorem map_err_scrap_deterministic (d : Distro) (err : String) (c₁ c₂ : Nat) :
    (map_err_scrap d err c₁).1 = (map_err_scrap d err c₂).1 := by
  unfold map_err_scrap
  by_cases h : rustToUppercase d.name = rustToUppercase "Ubuntu" <;>
    simp [h] <;>
    [by_cases h2 : rustStrLt d.version_id "21";
     by_cases h2 : msgMentionsDisplayServer err] <;>
    simp [h2]

/-- C10: `common_get_error` returns the empty string on every branch. -/
theorem common_get_error_empty (d : Distro) : common_get_error d = "" := by
  simp [common_get_error]

/-! ## Lemmas about `check_init` -/

/-- When the cache word is already non-zero, `check_init` returns `Ok`
without enumerating, constructing or forwarding, and leaves the word
unchanged (this covers both the X11 gate and the fast path). -/
theorem check_init_of_some (env : Env DI Cap) (s : Option (CapDisplayInfo DI Cap))
    (info : CapDisplayInfo DI Cap) (h : s = some info) :
    check_init env s = ⟨.ok (), s, false, false, false⟩ := by
  subst h
  unfold check_init
  by_cases hx : env.is_x11 <;> simp [hx]

theorem check_init_x11 (env : Env DI Cap) (s : Option (CapDisplayInfo DI Cap))
    (h : env.is_x11 = true) :
    check_init env s = ⟨.ok (), s, false, false, false⟩ := by
  unfold check_init
  simp [h]

theorem check_init_cold_enum_fail (env : Env DI Cap) (hx : env.is_x11 = false)
    (e : String) (hall : env.display_all = .error e) :
    check_init env (none : Option (CapDisplayInfo DI Cap)) =
      ⟨.error e, none, true, false, false⟩ := by
  unfold check_init
  simp [hx, hall]

theorem check_init_cold_current_fail (env : Env DI Cap) (hx : env.is_x11 = false)
    (all : List Display) (hall : env.display_all = .ok all)
    (e : String) (hcur : env.get_current_display_2 all = .error e) :
    check_init env (none : Option (CapDisplayInfo DI Cap)) =
      ⟨.error e, none, true, false, false⟩ := by
  unfold check_init
  simp [hx, hall, hcur]

theorem check_init_cold_capturer_fail (env : Env DI Cap) (hx : env.is_x11 = false)
    (all : List Display) (hall : env.display_all = .ok all)
    (nd cur : Nat) (disp : Display)
    (hcur : env.get_current_display_2 all = .ok (nd, cur, disp))
    (e : String) (hcap : env.capturer_new disp true = .error e) :
    check_init env (none : Option (CapDisplayInfo DI Cap)) =
      ⟨.error ("Failed to create capturer: " ++ e), none, true, true, false⟩ := by
  unfold check_init
  simp [hx, hall, hcur, hcap]

theorem check_init_cold_success (env : Env DI Cap) (hx : env.is_x11 = false)
    (all : List Display) (hall : env.display_all = .ok all)
    (nd cur : Nat) (disp : Display)
    (hcur : env.get_current_display_2 all = .ok (nd, cur, disp))
    (cap : Cap) (hcap : env.capturer_new disp true = .ok cap) :
    check_init env (none : Option (CapDisplayInfo DI Cap)) =
      ⟨.ok (),
        some ⟨all.map fun d => (d.origin, d.width, d.height),
          (env.get_displays_2 all).2, all.length, (env.get_displays_2 all).1, cur, cap⟩,
        true, true,
        (disp.origin.1 != wrapI32 (disp.origin.1 + toI32 disp.width)) &&
          (disp.origin.2 != wrapI32 (disp.origin.2 + toI32 disp.height))⟩ := by
  unfold check_init
  simp [hx, hall, hcur, hcap]

/-- On a cold cache (and off the X11 gate), every branch of `check_init`
calls `Display::all`, whatever the collaborators return. -/
theorem check_init_cold_enumerates (env : Env DI Cap) (hx : env.is_x11 = false) :
    (check_init env (none : Option (CapDisplayInfo DI Cap))).enumerated = true := by
  rcases hall : env.display_all with e | all
  · rw [check_init_cold_enum_fail env hx e hall]
  · rcases hcur : env.get_current_display_2 all with e | ⟨nd, cur, disp⟩
    · rw [check_init_cold_current_fail env hx all hall e hcur]
    · rcases hcap : env.capturer_new disp true with e | cap
      · rw [check_init_cold_capturer_fail env hx all hall nd cur disp hcur e hcap]
      · rw [check_init_cold_success env hx all hall nd cur disp hcur cap hcap]

/-! ## Concrete environments used by the witnesses -/

def sampleDisplay : Display := ⟨(0, 0), 800, 600⟩

/-- One 800×600 display at the origin; every collaborator succeeds. -/
def sampleEnv : Env Nat Nat :=
  ⟨false, .ok [sampleDisplay], fun _ => (0, [7]),
    fun all => .ok (all.length, 0, sampleDisplay), fun _ _ => .ok 42⟩

/-- The cache contents `check_init sampleEnv none` builds. -/
def sampleInfo : CapDisplayInfo Nat Nat :=
  ⟨[((0, 0), 800, 600)], [7], 1, 0, 0, 42⟩

/-- Display enumeration fails. -/
def failEnv : Env Nat Nat :=
  ⟨false, .error "no displays", fun _ => (0, []),
    fun _ => .error "no current", fun _ _ => .ok 0⟩

def degenerateDisplay : Display := ⟨(0, 0), 0, 0⟩

/-- One zero-sized display at the origin; every collaborator succeeds. -/
def degenerateEnv : Env Nat Nat :=
  ⟨false, .ok [degenerateDisplay], fun _ => (0, []),
    fun _ => .ok (1, 0, degenerateDisplay), fun _ _ => .ok 0⟩

/-! ## Claim theorems for the cache -/

/-- C4: if any initialization step fails (display enumeration,
current-display selection, or device construction), `check_init` returns
the error with the cache word unchanged and still absent — no partially
constructed `CapDisplayInfo` is published. -/
theorem check_init_error_atomic (env : Env DI Cap) (s : Option (CapDisplayInfo DI Cap))
    (e : String) (h : (check_init env s).res = .error e) :
    (check_init env s).state = s ∧ s = none := by
  by_cases hx : env.is_x11
  · rw [check_init_x11 env s hx] at h
    simp at h
  · have hx' : env.is_x11 = false := by simpa using hx
    cases s with
    | some info =>
      rw [check_init_of_some env _ info rfl] at h
      simp at h
    | none =>
      refine ⟨?_, rfl⟩
      rcases hall : env.display_all with e' | all
      · rw [check_init_cold_enum_fail env hx' e' hall]
      · rcases hcur : env.get_current_display_2 all with e' | ⟨nd, cur, disp⟩
        · rw [check_init_cold_current_fail env hx' all hall e' hcur]
        · rcases hcap : env.capturer_new disp true with e' | cap
          · rw [check_init_cold_capturer_fail env hx' all hall nd cur disp hcur e' hcap]
          · rw [check_init_cold_success env hx' all hall nd cur disp hcur cap hcap] at h
            simp at h

/-- Witness for C4: with failing display enumeration, the cache word
stays absent. -/
theorem check_init_error_atomic_witness :
    (check_init failEnv none).state = none ∧
    (none : Option (CapDisplayInfo Nat Nat)) = none :=
  check_init_error_atomic failEnv none "no displays" rfl

/-- C5: accessor asymmetry — `get_primary`, `get_display_num` and
`get_capturer` are pure reads of the cache word (their types take the
word and return only a result, so they cannot change it) and on a cold
cache each fails with the descriptive `CACHE_ERR`, never a default;
`get_displays` instead runs `check_init` first, so on a cold cache with
successful collaborators it initializes the cache and answers from the
freshly built state. -/
theorem accessor_asymmetry (env : Env DI Cap) (hx : env.is_x11 = false)
    (all : List Display) (hall : env.display_all = .ok all)
    (nd cur : Nat) (disp : Display)
    (hcur : env.get_current_display_2 all = .ok (nd, cur, disp))
    (cap : Cap) (hcap : env.capturer_new disp true = .ok cap) :
    get_primary (none : Option (CapDisplayInfo DI Cap)) = .error CACHE_ERR ∧
    get_display_num (none : Option (CapDisplayInfo DI Cap)) = .error CACHE_ERR ∧
    get_capturer false (none : Option (CapDisplayInfo DI Cap)) = .error CACHE_ERR ∧
    (get_displays env none).2 =
      some ⟨all.map fun d => (d.origin, d.width, d.height),
        (env.get_displays_2 all).2, all.length, (env.get_displays_2 all).1, cur, cap⟩ ∧
    (get_displays env none).1 =
      .ok ((env.get_displays_2 all).1, (env.get_displays_2 all).2) := by
  refine ⟨rfl, rfl, rfl, ?_, ?_⟩ <;>
  · unfold get_displays
    rw [check_init_cold_success env hx all hall nd cur disp hcur cap hcap]

/-- Witness for C5 on `sampleEnv`: the non-initializing accessors fail on
the cold cache while `get_displays` initializes it. -/
theorem accessor_asymmetry_witness :
    get_primary (none : Option (CapDisplayInfo Nat Nat)) = .error CACHE_ERR ∧
    (get_displays sampleEnv none).2 = some sampleInfo ∧
    (get_displays sampleEnv none).1 = .ok (0, [7]) :=
  ⟨(accessor_asymmetry sampleEnv rfl [sampleDisplay] rfl 1 0 sampleDisplay rfl 42 rfl).1,
   (accessor_asymmetry sampleEnv rfl [sampleDisplay] rfl 1 0 sampleDisplay rfl 42 rfl).2.2.2.1,
   (accessor_asymmetry sampleEnv rfl [sampleDisplay] rfl 1 0 sampleDisplay rfl 42 rfl).2.2.2.2⟩

/-- C6: `clear` off the X11 gate always leaves the cache word absent;
when it was already absent the call is a no-op returning the state
unchanged; and a subsequent `check_init` runs a fresh enumeration, and a
fresh device construction when the collaborators succeed. -/
theorem clear_resets (env : Env DI Cap) (s : Option (CapDisplayInfo DI Cap))
    (hx : env.is_x11 = false) :
    clear env.is_x11 s = none ∧
    (s = none → clear env.is_x11 s = s) ∧
    (check_init env (clear env.is_x11 s)).enumerated = true ∧
    (∀ (all : List Display) (nd cur : Nat) (disp : Display) (cap : Cap),
      env.display_all = .ok all →
      env.get_current_display_2 all = .ok (nd, cur, disp) →
      env.capturer_new disp true = .ok cap →
      (check_init env (clear env.is_x11 s)).constructed = true ∧
      (check_init env (clear env.is_x11 s)).res = .ok ()) := by
  have hclear : clear env.is_x11 s = none := by
    rw [hx]; cases s <;> rfl
  refine ⟨hclear, ?_, ?_, ?_⟩
  · intro hs
    rw [hclear, hs]
  · rw [hclear]
    exact check_init_cold_enumerates env hx
  · intro all nd cur disp cap hall hcur hcap
    rw [hclear, check_init_cold_success env hx all hall nd cur disp hcur cap hcap]
    exact ⟨rfl, rfl⟩

/-- Witness for C6: tearing down a warm `sampleEnv` cache empties it, a
teardown of an absent cache is a no-op, and the next `check_init`
re-enumerates and re-constructs. -/
theorem clear_resets_witness :
    clear sampleEnv.is_x11 (some sampleInfo) = none ∧
    clear sampleEnv.is_x11 (none : Option (CapDisplayInfo Nat Nat)) = none ∧
    (check_init sampleEnv (clear sampleEnv.is_x11 (some sampleInfo))).enumerated = true ∧
    (check_init sampleEnv (clear sampleEnv.is_x11 (some sampleInfo))).constructed = true :=
  ⟨(clear_resets sampleEnv (some sampleInfo) rfl).1,
   (clear_resets sampleEnv none rfl).2.1 rfl,
   (clear_resets sampleEnv (some sampleInfo) rfl).2.2.1,
   ((clear_resets sampleEnv (some sampleInfo) rfl).2.2.2
      [sampleDisplay] 1 0 sampleDisplay 42 rfl rfl rfl).1⟩

/-- C7: `check_init` is idempotent — whenever the cache word is already
present, the call returns `Ok(())`, performs no display enumeration, no
device construction and no forwarding, and leaves the cached state
exactly as it was. -/
theorem check_init_idempotent (env : Env DI Cap) (s : Option (CapDisplayInfo DI Cap))
    (info : CapDisplayInfo DI Cap) (h : s = some info) :
    (check_init env s).res = .ok () ∧
    (check_init env s).state = s ∧
    (check_init env s).enumerated = false ∧
    (check_init env s).constructed = false ∧
    (check_init env s).forwarded = false := by
  rw [check_init_of_some env s info h]
  exact ⟨rfl, rfl, rfl, rfl, rfl⟩

/-- Witness for C7 on a warm `sampleEnv` cache. -/
theorem check_init_idempotent_witness :
    (check_init sampleEnv (some sampleInfo)).res = .ok () ∧
    (check_init sampleEnv (some sampleInfo)).state = some sampleInfo ∧
    (check_init sampleEnv (some sampleInfo)).enumerated = false ∧
    (check_init sampleEnv (some sampleInfo)).constructed = false ∧
    (check_init sampleEnv (some sampleInfo)).forwarded = false :=
  check_init_idempotent sampleEnv (some sampleInfo) sampleInfo rfl

/-- C8: on an initializing call, the bounding rectangle of the current
display is forwarded to the input-resolution collaborator exactly when
`min ≠ max` on both axes; a degenerate rectangle (equal on either axis)
triggers no forwarding. -/
theorem degenerate_rect_no_forward (env : Env DI Cap) (hx : env.is_x11 = false)
    (all : List Display) (hall : env.display_all = .ok all)
    (nd cur : Nat) (disp : Display)
    (hcur : env.get_current_display_2 all = .ok (nd, cur, disp))
    (cap : Cap) (hcap : env.capturer_new disp true = .ok cap) :
    ((disp.origin.1 = wrapI32 (disp.origin.1 + toI32 disp.width) ∨
      disp.origin.2 = wrapI32 (disp.origin.2 + toI32 disp.height)) →
      (check_init env (none : Option (CapDisplayInfo DI Cap))).forwarded = false) ∧
    ((check_init env (none : Option (CapDisplayInfo DI Cap))).forwarded = true ↔
      disp.origin.1 ≠ wrapI32 (disp.origin.1 + toI32 disp.width) ∧
      disp.origin.2 ≠ wrapI32 (disp.origin.2 + toI32 disp.height)) := by
  rw [check_init_cold_success env hx all hall nd cur disp hcur cap hcap]
  constructor
  · rintro (h | h) <;>
    · show (disp.origin.1 != wrapI32 (disp.origin.1 + toI32 disp.width) &&
          disp.origin.2 != wrapI32 (disp.origin.2 + toI32 disp.height)) = false
      rw [← h]
      simp
  · show (disp.origin.1 != wrapI32 (disp.origin.1 + toI32 disp.width) &&
        disp.origin.2 != wrapI32 (disp.origin.2 + toI32 disp.height)) = true ↔ _
    simp

/-- Witness for C8: a width-0, height-0 display at the origin produces no
forwarding call. -/
theorem degenerate_rect_no_forward_witness :
    (check_init degenerateEnv (none : Option (CapDisplayInfo Nat Nat))).forwarded = false :=
  (degenerate_rect_no_forward degenerateEnv rfl [degenerateDisplay] rfl 1 0
      degenerateDisplay rfl 0 rfl).1 (Or.inl (by decide))

end Wayland
